import Mathlib

/-!
Verification development for the `Lakeshore_Model331` serial-driver module
(`src/Lakeshore_Model331.py`).

The Python module is shallowly embedded as executable Lean definitions:

* Python values that can occur in a configuration dictionary (ints, strings,
  nested dicts) are the inductive type `PyVal`; a Python `dict` is an
  association list `List (String × PyVal)` in insertion order with distinct
  keys, as produced by Python dict literals.
* Exceptions are modelled with `Except LSError`.
* The serial port is external I/O; it is modelled by a parameter
  `dev : String → Int → String` giving, for the byte command written and the
  serial timeout in effect at the `readline` call, the raw line the device
  returns.  Byte encoding/decoding with the platform default encoding is the
  identity on the strings exchanged here, so the transport is modelled at the
  string level.
-/

/-- Module-level constant `DEFAULT_TIMEOUT = 5`. -/
def DEFAULT_TIMEOUT : Int := 5

/-- Python `str.upper()` (on the ASCII strings the module handles). -/
def pyUpper (s : String) : String := String.mk (s.toList.map Char.toUpper)

/-- Python `str.lower()` (on the ASCII strings the module handles). -/
def pyLower (s : String) : String := String.mk (s.toList.map Char.toLower)

/-- A Python value that can appear in a configuration dictionary: an integer,
a string, or a nested dictionary (modelled as an assoc list in insertion
order). -/
inductive PyVal where
  | vint : Int → PyVal
  | vstr : String → PyVal
  | vdict : List (String × PyVal) → PyVal

/-- True exactly for dictionary values; models Python `isinstance(x, dict)`. -/
def PyVal.isDict : PyVal → Bool
  | .vdict _ => true
  | _ => false

/-- The errors raised by the module.  `runtimeError`/`keyError` carry the
message text of the corresponding Python exception.  `conflictError temp ravel`
models the `RuntimeError` raised by `_ravel_dictionary` under the `raise`
policy, whose message formats the two colliding fragments `temp_dict` and
`raveled_dictionary` (carried here structurally instead of as formatted
text).  `valueError`/`typeError` model failures of `int(...)` conversion. -/
inductive LSError where
  | runtimeError : String → LSError
  | keyError : String → LSError
  | conflictError : List (String × PyVal) → List (String × PyVal) → LSError
  | valueError : String → LSError
  | typeError : String → LSError

mutual

/-- Size of a `PyVal` (number of constructors), used as recursion fuel for the
dictionary flattener. -/
def pySize : PyVal → Nat
  | .vint _ => 1
  | .vstr _ => 1
  | .vdict d => 1 + entsSize d

/-- Size of a dictionary entry list, mutual with `pySize`. -/
def entsSize : List (String × PyVal) → Nat
  | [] => 0
  | (_, v) :: r => 1 + pySize v + entsSize r

end

/-- Python `d[k]` lookup on an assoc-list dictionary (first match). -/
def lookupKey (l : List (String × PyVal)) (k : String) : Option PyVal :=
  (l.find? (fun e => e.1 = k)).map (fun e => e.2)

/-- Python dict merge `{**a, **b}`: the keys of `a` in order (with the value
replaced by `b`'s when `b` also binds the key), followed by the keys of `b`
not present in `a`, in `b`'s order. -/
def dunion (a b : List (String × PyVal)) : List (String × PyVal) :=
  a.map (fun e =>
    match lookupKey b e.1 with
    | some w => (e.1, w)
    | none => e) ++ b.filter (fun e => (lookupKey a e.1).isNone)

/-- The three validated conflict policies of `_ravel_dictionary`. -/
inductive Conflict where
  | raise : Conflict
  | superior : Conflict
  | inferior : Conflict

/-- One merge step of `_ravel_dictionary` (`src/Lakeshore_Model331.py`
lines 294-322): if the key sets of the accumulated dictionary and the new
fragment intersect, resolve per the policy (`raise` errors with both
fragments; `superior` keeps the accumulated entries, `{**temp, **ravel}`;
`inferior` keeps the new entries, `{**ravel, **temp}`); with no intersection
combine as `{**temp, **ravel}`. -/
def combineDicts (c : Conflict) (ravel temp : List (String × PyVal)) :
    Except LSError (List (String × PyVal)) :=
  if temp.any (fun e => (lookupKey ravel e.1).isSome) then
    match c with
    | .raise => .error (.conflictError temp ravel)
    | .superior => .ok (dunion temp ravel)
    | .inferior => .ok (dunion ravel temp)
  else
    .ok (dunion temp ravel)

/-- Code-point lexicographic order on character lists; Python string `<`. -/
def charsLt : List Char → List Char → Bool
  | [], [] => false
  | [], _ :: _ => true
  | _ :: _, [] => false
  | a :: as, b :: bs =>
    if a.toNat < b.toNat then true
    else if b.toNat < a.toNat then false
    else charsLt as bs

/-- Python string comparison `s < t` (code-point lexicographic). -/
def pyStrLt (s t : String) : Bool := charsLt s.toList t.toList

/-- Insert an entry into a key-sorted entry list (ascending by key, Python
string comparison = code-point lexicographic). -/
def insertEnt (e : String × PyVal) : List (String × PyVal) → List (String × PyVal)
  | [] => [e]
  | f :: rest => if pyStrLt f.1 e.1 then f :: insertEnt e rest else e :: f :: rest

/-- Python `dict(sorted(dictionary.items()))`: the entries sorted ascending
by key. -/
def sortEnts : List (String × PyVal) → List (String × PyVal)
  | [] => []
  | e :: rest => insertEnt e (sortEnts rest)

/-- The recursive loop of `_ravel_dictionary` (lines 280-325), fuelled to make
the nested recursion structural: the first list is the accumulated
`raveled_dictionary`, the second the remaining (already key-sorted) entries.
A dictionary-valued entry is recursively ravelled (sorting its entries first,
as the recursive Python call does); any other entry becomes the single-key
fragment `{keydex: itemdex}`; each fragment is merged by `combineDicts`.
The fuel passed by `_ravel_dictionary` always suffices
(`ravelGo_fuel_congr`), so the out-of-fuel error is unreachable. -/
def ravelGo (c : Conflict) : Nat → List (String × PyVal) → List (String × PyVal) →
    Except LSError (List (String × PyVal))
  | 0, _, _ => .error (.runtimeError "recursion limit")
  | _ + 1, ravel, [] => .ok ravel
  | f + 1, ravel, (k, v) :: rest =>
    (match v with
      | .vdict d => ravelGo c f [] (sortEnts d)
      | _ => .ok [(k, v)]).bind fun temp =>
    (combineDicts c ravel temp).bind fun ravel2 =>
    ravelGo c f ravel2 rest

/-- `_ravel_dictionary(dictionary, conflict)` (lines 235-325): lower-cases and
validates the conflict policy, then folds the key-sorted entries through
`ravelGo`. -/
def _ravel_dictionary (dictionary : List (String × PyVal)) (conflict : String) :
    Except LSError (List (String × PyVal)) :=
  let c := pyLower conflict
  if c = "raise" then
    ravelGo .raise (entsSize dictionary + 1) [] (sortEnts dictionary)
  else if c = "superior" then
    ravelGo .superior (entsSize dictionary + 1) [] (sortEnts dictionary)
  else if c = "inferior" then
    ravelGo .inferior (entsSize dictionary + 1) [] (sortEnts dictionary)
  else
    .error (.runtimeError
      "The conflict parameter must be one the following: \x27raise\x27, \x27superior\x27, \x27inferior\x27.")

/-- Python `repr` of a `PyVal`, fuelled through nested dictionaries (the fuel
passed by `pyStr` always suffices); only used by `str(port)` when a
non-string is given as the port. -/
def reprVal : Nat → PyVal → String
  | _, .vint n => toString n
  | _, .vstr s => "\x27" ++ s ++ "\x27"
  | 0, .vdict _ => "..."
  | f + 1, .vdict d =>
    "\x7b" ++ String.intercalate ", "
      (d.map (fun e => "\x27" ++ e.1 ++ "\x27: " ++ reprVal f e.2)) ++ "\x7d"

/-- Python `str(x)` on a `PyVal`: strings unchanged, anything else its repr. -/
def pyStr : PyVal → String
  | .vstr s => s
  | v => reprVal (pySize v) v

/-- Value of a list of decimal digit characters. -/
def digitsToNat (cs : List Char) : Nat :=
  cs.foldl (fun a c => 10 * a + (c.toNat - 48)) 0

/-- Parse an optionally signed run of decimal digits; the integer-literal
fragment of Python `int(string)`. -/
def parseIntChars : List Char → Option Int
  | '+' :: r => if !r.isEmpty && r.all Char.isDigit then some (digitsToNat r) else none
  | '-' :: r => if !r.isEmpty && r.all Char.isDigit then some (-(digitsToNat r : Int)) else none
  | r => if !r.isEmpty && r.all Char.isDigit then some (digitsToNat r) else none

/-- Python `int(x)`: ints unchanged, strings parsed as integer literals
(`ValueError` otherwise), dictionaries a `TypeError`. -/
def pyInt : PyVal → Except LSError Int
  | .vint n => .ok n
  | .vstr s =>
    match parseIntChars s.toList with
    | some n => .ok n
    | none => .error (.valueError
        ("invalid literal for int() with base 10: \x27" ++ s ++ "\x27"))
  | .vdict _ => .error (.typeError
      "int() argument must be a string, a bytes-like object or a number, not \x27dict\x27")

/-- Serial parity setting; the instrument is hardwired to `serial.PARITY_ODD`. -/
inductive Parity where
  | odd : Parity

/-- The `Lakeshore_Model331` instance attributes after `__init__`
(`src/Lakeshore_Model331.py` lines 14-60).  `__init__` assigns the validated
baud rate to the misspelled attribute `_bardrate` (line 51); the attribute
`_baudrate` that the serial connection is opened with (line 212) is never
assigned on the instance and keeps the class-level default `int()`, i.e. `0`
— hence the extra `_bardrate` field here and `_baudrate` frozen at `0`. -/
structure Lakeshore_Model331 where
  _port : String
  _bardrate : Int
  _timeout : Int
  _data : Nat
  _parity : Parity
  _startbits : Nat
  _endbits : Nat
  _baudrate : Int

/-- Python `baudrate in (300, 1200, 9600)` from `__init__` line 46. -/
def isAllowedBaud : PyVal → Bool
  | .vint n => n == 300 || n == 1200 || n == 9600
  | _ => false

/-- `Lakeshore_Model331.__init__(port, baudrate, timeout)` (lines 24-60):
rejects a baud rate outside `{300, 1200, 9600}` with a `RuntimeError` before
anything else (no connection is attempted anywhere in `__init__`), then
stores `str(port)`, `int(baudrate)` (into the misspelled `_bardrate`),
`int(timeout)` and the four fixed hardware parameters. -/
def Lakeshore_Model331.init (port baudrate timeout : PyVal) :
    Except LSError Lakeshore_Model331 :=
  if !isAllowedBaud baudrate then
    .error (.runtimeError "The baudrate must be 300, 1200, or 9600.")
  else
    (pyInt baudrate).bind fun b =>
    (pyInt timeout).bind fun t =>
    .ok { _port := pyStr port, _bardrate := b, _timeout := t,
          _data := 7, _parity := .odd, _startbits := 1, _endbits := 1,
          _baudrate := 0 }

/-- The serial-session state as configured by the
`serial.Serial(port=self._port, baudrate=self._baudrate, bytesize=self._data,
parity=self._parity, stopbits=self._endbits, timeout=self._timeout)` call
(lines 212-215). -/
structure Ser where
  port : String
  baudrate : Int
  bytesize : Nat
  parity : Parity
  stopbits : Nat
  timeout : Int

/-- The serial session opened by `_send_raw_scip_command` (lines 212-215).
Note `baudrate := self._baudrate`, the attribute `__init__` never assigns. -/
def Lakeshore_Model331.openSer (self : Lakeshore_Model331) : Ser :=
  { port := self._port, baudrate := self._baudrate, bytesize := self._data,
    parity := self._parity, stopbits := self._endbits,
    timeout := self._timeout }

/-- `_send_raw_scip_command(bytecommand)` (lines 193-230).  The device is the
parameter `dev`: `dev written t` is the raw line `ser.readline()` returns
after `ser.write(written)` with `ser.timeout = t` in effect.  Returns the raw
response together with the session state at release time: after the write,
if `ser.timeout <= 0` the timeout is set to `DEFAULT_TIMEOUT` for the
`readline` and then set back to `self._timeout`; otherwise the line is read
with the configured timeout, which is left untouched. -/
def Lakeshore_Model331._send_raw_scip_command (self : Lakeshore_Model331)
    (dev : String → Int → String) (bytecommand : String) : String × Ser :=
  let ser := self.openSer
  if ser.timeout ≤ 0 then
    let ser1 := { ser with timeout := DEFAULT_TIMEOUT }
    let responce := dev bytecommand ser1.timeout
    let ser2 := { ser1 with timeout := self._timeout }
    (responce, ser2)
  else
    (dev bytecommand ser.timeout, ser)

/-- Character set of Python `strip('\r\n')`. -/
def isCRLF (c : Char) : Bool := c = '\r' || c = '\n'

/-- Python `s.strip('\r\n')`: removes carriage-return and newline characters
from BOTH ends of the string (and nothing from its interior). -/
def stripCRLF (s : String) : String :=
  String.mk (((s.toList.dropWhile isCRLF).reverse.dropWhile isCRLF).reverse)

/-- `send_scip_command(command)` (lines 157-190): appends the single newline
terminator, sends the (encoded) command through `_send_raw_scip_command`,
decodes the raw response and strips `'\r\n'` characters from it.  Encoding
and decoding with `sys.getdefaultencoding()` are mutually inverse and are
modelled as the identity on strings. -/
def Lakeshore_Model331.send_scip_command (self : Lakeshore_Model331)
    (dev : String → Int → String) (command : String) : String :=
  let ended_command := command ++ "\n"
  let raw_responce := (self._send_raw_scip_command dev ended_command).1
  stripCRLF raw_responce

/-- The requested `dtype` of `read_kelvin`: `int`, `float` or `str`. -/
inductive Dtype where
  | dint : Dtype
  | dfloat : Dtype
  | dstr : Dtype
deriving DecidableEq

/-- A converted `read_kelvin` result.  Python `float` values are modelled as
exact rationals (the decimal-literal value the text denotes). -/
inductive PyRes where
  | rint : Int → PyRes
  | rfloat : ℚ → PyRes
  | rstr : String → PyRes
deriving DecidableEq

/-- The decimal-literal fragment shared by Python `decimal.Decimal(text)` and
`float(text)`: optional sign, digits, optional point and fraction digits (at
least one digit overall); `none` on anything else (e.g. `"ERR"`), modelling
the conversion exception. -/
def parseDecimal (s : String) : Option ℚ :=
  let cs := s.toList
  let signed : Int × List Char :=
    match cs with
    | '+' :: r => (1, r)
    | '-' :: r => (-1, r)
    | r => (1, r)
  let intPart := signed.2.takeWhile Char.isDigit
  let rest := signed.2.dropWhile Char.isDigit
  match rest with
  | [] =>
    if intPart.isEmpty then none
    else some (mkRat (signed.1 * digitsToNat intPart) 1)
  | '.' :: fracPart =>
    if fracPart.all Char.isDigit && !(intPart.isEmpty && fracPart.isEmpty) then
      some (mkRat
        (signed.1 * (digitsToNat intPart * 10 ^ fracPart.length + digitsToNat fracPart))
        (10 ^ fracPart.length))
    else none
  | _ => none

/-- Python `int(Decimal(...))`: truncation of the exact decimal value toward
zero. -/
def decimalToInt (q : ℚ) : Int := q.num.tdiv (q.den : Int)

/-- The conversion `type_funt` built in `read_kelvin` (lines 132-138):
for an integer-like `dtype` (`issubclass(dtype, int)`), parse the text with
the exact decimal parser and narrow (`dtype(decimal.Decimal(x))`); for any
other `dtype`, convert the text directly (`dtype(x)`).  `none` models the
conversion raising. -/
def type_funt (dtype : Dtype) (x : String) : Option PyRes :=
  match dtype with
  | .dint => (parseDecimal x).map (fun q => .rint (decimalToInt q))
  | .dfloat => (parseDecimal x).map (fun q => .rfloat q)
  | .dstr => some (.rstr x)

/-- `read_kelvin(input_letter, dtype)` (lines 107-154): upper-cases the
channel letter and rejects anything but `"A"`/`"B"` with a `RuntimeError`
before any transport activity; otherwise sends `KRDG? {input}` and converts
the trimmed response through `type_funt`, falling back to the raw response
string (`str(str_responce)`) when the conversion raises. -/
def Lakeshore_Model331.read_kelvin (self : Lakeshore_Model331)
    (dev : String → Int → String) (input_letter : String) (dtype : Dtype) :
    Except LSError PyRes :=
  let il := pyUpper input_letter
  if ¬ (il = "A" ∨ il = "B") then
    .error (.runtimeError "The input letter type must be \x27A\x27 or \x27B\x27.")
  else
    let command := "KRDG? " ++ il
    let str_responce := self.send_scip_command dev command
    match type_funt dtype str_responce with
    | some responce => .ok responce
    | none => .ok (.rstr str_responce)

/-- The first step of `load_configuration` (lines 85-90): flatten the
configuration under the `raise` policy when `_flat` is set, otherwise use it
as is (`dict(configuration)` on a dict is a copy). -/
def resolved_configuration (configuration : List (String × PyVal))
    (_flat : Bool) : Except LSError (List (String × PyVal)) :=
  if _flat then _ravel_dictionary configuration "raise"
  else .ok configuration

/-- `Lakeshore_Model331.load_configuration(configuration, _flat)`
(lines 64-104): optionally flattens, then reads `config['port']`,
`config['baudrate']`, `config['timeout']`; a `KeyError` on any of them is
re-raised as a `KeyError` naming all three required keys; with all three
present the instance is built by `cls(port=..., baudrate=..., timeout=...)`. -/
def Lakeshore_Model331.load_configuration (configuration : List (String × PyVal))
    (_flat : Bool) : Except LSError Lakeshore_Model331 :=
  (resolved_configuration configuration _flat).bind fun config =>
  match lookupKey config "port", lookupKey config "baudrate",
      lookupKey config "timeout" with
  | some port, some baudrate, some timeout =>
    Lakeshore_Model331.init port baudrate timeout
  | _, _, _ =>
    .error (.keyError
      "The serial parameters are missing. Required are the following: \x27port\x27, \x27baudrate\x27, and \x27timeout\x27.")

/-- The example dictionary of the spec, `{"a": 1, "b": {"a": 2}}`. -/
def exDict : List (String × PyVal) :=
  [("a", .vint 1), ("b", .vdict [("a", .vint 2)])]

/-- Holds when no value of the dictionary is itself a dictionary. -/
def dictValuesFree (l : List (String × PyVal)) : Bool :=
  l.all (fun e => ! e.2.isDict)

/-- Test fixture: the handle built by
`Lakeshore_Model331(port="COM1", baudrate=9600, timeout=5)`. -/
def testHandle : Lakeshore_Model331 :=
  { _port := "COM1", _bardrate := 9600, _timeout := 5, _data := 7,
    _parity := .odd, _startbits := 1, _endbits := 1, _baudrate := 0 }

/-- Test fixture: a handle whose configured timeout is `0`. -/
def hZero : Lakeshore_Model331 :=
  { _port := "COM1", _bardrate := 9600, _timeout := 0, _data := 7,
    _parity := .odd, _startbits := 1, _endbits := 1, _baudrate := 0 }

/-- Mocked device echoing the line `"X\r\n"`. -/
def devEcho : String → Int → String := fun _ _ => "X\r\n"

/-- Mocked device answering `"+077.350\r\n"` to the command `"KRDG? A\n"`. -/
def dev77 : String → Int → String :=
  fun cmd _ => if cmd = "KRDG? A\n" then "+077.350\r\n" else ""

/-- Mocked device answering the non-numeric line `"ERR\r\n"`. -/
def devERR : String → Int → String := fun _ _ => "ERR\r\n"

/-- Mocked device whose answer has a leading carriage return. -/
def devLeadCR : String → Int → String := fun _ _ => "\rX\r\n"

/-- Test fixture: a configuration with all three required keys. -/
def cfgFull : List (String × PyVal) :=
  [("port", .vstr "p"), ("baudrate", .vint 9600), ("timeout", .vint 5)]

/-- Test fixture: a configuration missing the required key `port`. -/
def cfgMissing : List (String × PyVal) :=
  [("baudrate", .vint 9600), ("timeout", .vint 5)]

/-- Claim C1 (evidence of the code bug): constructing with the valid baud
rate 9600 succeeds and validation rejects 301 with the invalid-configuration
error, but because `__init__` line 51 assigns the argument to the misspelled
attribute `_bardrate`, the stored `_baudrate` attribute — the one
`_send_raw_scip_command` opens the serial connection with — is the
class-level default `0`, which is not in `{300, 1200, 9600}`, instead of the
argument `9600`. -/
theorem baudrate_assignment_typo :
    Lakeshore_Model331.init (.vstr "COM1") (.vint 9600) (.vint 5) = .ok testHandle
    ∧ testHandle._bardrate = 9600
    ∧ testHandle._baudrate = 0
    ∧ testHandle.openSer.baudrate = 0
    ∧ isAllowedBaud (.vint testHandle.openSer.baudrate) = false
    ∧ Lakeshore_Model331.init (.vstr "COM1") (.vint 301) (.vint 5) =
        .error (.runtimeError "The baudrate must be 300, 1200, or 9600.") :=
  ⟨rfl, rfl, rfl, rfl, rfl, rfl⟩

/-- Claim C2: flattening `{"a": 1, "b": {"a": 2}}` fails with the conflict
error (identifying both colliding fragments) under policy `raise`; under
`superior` the result is `{"a": 1}` (the earlier-processed top-level entry
wins and the nested colliding key is discarded); under `inferior` the result
is `{"a": 2}` (the new, more-nested fragment overwrites). -/
theorem ravel_conflict_policies_on_example :
    _ravel_dictionary exDict "raise" =
        .error (.conflictError [("a", .vint 2)] [("a", .vint 1)])
    ∧ _ravel_dictionary exDict "superior" = .ok [("a", .vint 1)]
    ∧ _ravel_dictionary exDict "inferior" = .ok [("a", .vint 2)] :=
  ⟨rfl, rfl, rfl⟩

/-- Claim C5: with the device answering `"+077.350\r\n"` to `"KRDG? A\n"`,
`read_kelvin("a", float)` returns the exact decimal value 77.35,
`read_kelvin("a", int)` returns 77 (the decimal parse 77350/1000 truncated
toward zero, not a binary-float detour), and `read_kelvin("a", str)` returns
the raw text `"+077.350"`. -/
theorem read_kelvin_typed_results_concrete :
    testHandle.read_kelvin dev77 "a" .dfloat = .ok (.rfloat (mkRat 7735 100))
    ∧ testHandle.read_kelvin dev77 "a" .dint = .ok (.rint 77)
    ∧ testHandle.read_kelvin dev77 "a" .dstr = .ok (.rstr "+077.350")
    ∧ parseDecimal "+077.350" = some (mkRat 77350 1000)
    ∧ decimalToInt (mkRat 77350 1000) = 77 :=
  ⟨rfl, rfl, rfl, rfl, rfl⟩

lemma dropWhile_append_of_all {p : Char → Bool} :
    ∀ (l m : List Char), (∀ c ∈ l, p c = true) →
      (l ++ m).dropWhile p = m.dropWhile p := by
  intro l
  induction l with
  | nil => intro m _; rfl
  | cons a t ih =>
    intro m h
    have ha : p a = true := h a (List.mem_cons_self a t)
    simp only [List.cons_append, List.dropWhile_cons, ha, if_true]
    exact ih m (fun c hc => h c (List.mem_cons_of_mem a hc))

lemma dropWhile_all {p : Char → Bool} (l : List Char)
    (h : ∀ c ∈ l, p c = true) : l.dropWhile p = [] := by
  have := dropWhile_append_of_all l [] h
  simpa using this

lemma dropWhile_head_not {p : Char → Bool} (x : List Char)
    (h : ∀ c, x.head? = some c → p c = false) : x.dropWhile p = x := by
  cases x with
  | nil => rfl
  | cons a t => simp [List.dropWhile_cons, h a rfl]

lemma stripCRLF_sandwich (l x r : List Char)
    (hl : ∀ c ∈ l, isCRLF c = true) (hr : ∀ c ∈ r, isCRLF c = true)
    (hx1 : ∀ c, x.head? = some c → isCRLF c = false)
    (hx2 : ∀ c, x.getLast? = some c → isCRLF c = false) :
    stripCRLF (String.mk (l ++ x ++ r)) = String.mk x := by
  unfold stripCRLF
  have htl : (String.mk (l ++ x ++ r)).toList = l ++ x ++ r := rfl
  rw [htl, List.append_assoc, dropWhile_append_of_all l (x ++ r) hl]
  cases x with
  | nil =>
    rw [List.nil_append, dropWhile_all r hr]
    rfl
  | cons a t =>
    have ha : isCRLF a = false := hx1 a rfl
    rw [show ((a :: t) ++ r).dropWhile isCRLF = (a :: t) ++ r by
      simp [List.dropWhile_cons, ha]]
    rw [List.reverse_append,
      dropWhile_append_of_all r.reverse (a :: t).reverse
        (fun c hc => hr c (List.mem_reverse.mp hc)),
      dropWhile_head_not (a :: t).reverse
        (fun c hc => hx2 c (by rwa [List.head?_reverse] at hc)),
      List.reverse_reverse]

lemma sendRaw_fst (self : Lakeshore_Model331) (dev : String → Int → String)
    (bc : String) :
    (self._send_raw_scip_command dev bc).1 =
      dev bc (if self._timeout ≤ 0 then DEFAULT_TIMEOUT else self._timeout) := by
  unfold Lakeshore_Model331._send_raw_scip_command Lakeshore_Model331.openSer
  dsimp only
  split <;> rfl

/-- Claim C4 counterexample: the claim says only TRAILING carriage-return and
newline characters are stripped from the decoded response, so a raw response
`"\rX\r\n"` would have to yield `"\rX"`; the code uses Python
`strip('\r\n')`, which also removes the leading carriage return, yielding
`"X"`. -/
theorem send_scip_leading_strip_counterexample :
    testHandle.send_scip_command devLeadCR "KRDG? B" = "X"
    ∧ ("X" : String) ≠ "\rX" :=
  ⟨rfl, by decide⟩

/-- Claim C4 (amended): `send_scip_command` appends exactly one newline
terminator to the command before handing it to the transport, and strips
carriage-return/newline characters from BOTH ENDS (but not the interior, and
no other whitespace) of the decoded response: whenever the device answers
`l ++ x ++ r` to the terminated command — `l`, `r` all CR/LF, `x` with
non-CR/LF endpoints — the result is exactly `x`; in particular a response
`"X\r\n"` yields `"X"`. -/
theorem send_scip_command_strips_crlf_both_ends :
    ∀ (self : Lakeshore_Model331) (dev : String → Int → String)
      (command : String) (l x r : List Char),
      (∀ c ∈ l, isCRLF c = true) →
      (∀ c ∈ r, isCRLF c = true) →
      (∀ c, x.head? = some c → isCRLF c = false) →
      (∀ c, x.getLast? = some c → isCRLF c = false) →
      (∀ t, dev (command ++ "\n") t = String.mk (l ++ x ++ r)) →
      self.send_scip_command dev command = String.mk x := by
  intro self dev command l x r hl hr hx1 hx2 hdev
  unfold Lakeshore_Model331.send_scip_command
  dsimp only
  rw [sendRaw_fst, hdev, stripCRLF_sandwich l x r hl hr hx1 hx2]

/-- Witness for C4: with the device echoing `"X\r\n"` back to
`"KRDG? B\n"`, `send("KRDG? B")` returns exactly `"X"`. -/
theorem send_scip_command_strips_crlf_both_ends_witness :
    testHandle.send_scip_command devEcho "KRDG? B" = "X" :=
  send_scip_command_strips_crlf_both_ends testHandle devEcho "KRDG? B"
    [] ['X'] ['\r', '\n']
    (by decide) (by decide)
    (fun c hc => Option.some.inj hc ▸ (by decide : isCRLF 'X' = false))
    (fun c hc => Option.some.inj hc ▸ (by decide : isCRLF 'X' = false))
    (fun _ => rfl)

/-- Claim C3: whatever the device answers and whatever output type is
requested, if the type conversion of the trimmed response fails (modelled by
`type_funt` returning `none`), `read_kelvin` does not fail: it returns the
trimmed response text unchanged as a string. -/
theorem read_kelvin_conversion_fallback :
    ∀ (self : Lakeshore_Model331) (dev : String → Int → String)
      (input_letter : String) (dtype : Dtype),
      (pyUpper input_letter = "A" ∨ pyUpper input_letter = "B") →
      type_funt dtype
        (self.send_scip_command dev ("KRDG? " ++ pyUpper input_letter)) = none →
      self.read_kelvin dev input_letter dtype =
        .ok (.rstr
          (self.send_scip_command dev ("KRDG? " ++ pyUpper input_letter))) := by
  intro self dev il dtype hvalid hnone
  unfold Lakeshore_Model331.read_kelvin
  dsimp only
  rw [if_neg (not_not_intro hvalid), hnone]

/-- Witness for C3: the device answers the non-numeric line `"ERR\r\n"` and
`float` is requested; the result is the raw string `"ERR"`, not an error. -/
theorem read_kelvin_conversion_fallback_witness :
    testHandle.read_kelvin devERR "a" .dfloat = .ok (.rstr "ERR") :=
  read_kelvin_conversion_fallback testHandle devERR "a" .dfloat (Or.inl rfl) rfl

/-- Claim C6: a channel whose upper-cased form is neither `"A"` nor `"B"`
makes `read_kelvin` fail with the invalid-argument `RuntimeError`, with the
same result for every device (so before, and independent of, any transport
I/O); a channel whose upper-cased form is `"A"` or `"B"` (hence
case-insensitively valid) passes validation and the call returns a value. -/
theorem read_kelvin_channel_validation :
    ∀ (self : Lakeshore_Model331) (input_letter : String) (dtype : Dtype),
      (¬ (pyUpper input_letter = "A" ∨ pyUpper input_letter = "B") →
        ∀ dev : String → Int → String,
          self.read_kelvin dev input_letter dtype =
            .error (.runtimeError
              "The input letter type must be \x27A\x27 or \x27B\x27."))
      ∧ ((pyUpper input_letter = "A" ∨ pyUpper input_letter = "B") →
        ∀ dev : String → Int → String,
          ∃ res, self.read_kelvin dev input_letter dtype = .ok res) := by
  intro self il dtype
  constructor
  · intro hbad dev
    unfold Lakeshore_Model331.read_kelvin
    dsimp only
    rw [if_pos hbad]
  · intro hok dev
    unfold Lakeshore_Model331.read_kelvin
    dsimp only
    rw [if_neg (not_not_intro hok)]
    cases h : type_funt dtype
        (self.send_scip_command dev ("KRDG? " ++ pyUpper il)) with
    | some r => exact ⟨r, rfl⟩
    | none =>
      exact ⟨.rstr (self.send_scip_command dev ("KRDG? " ++ pyUpper il)), rfl⟩

/-- Witness for C6: the channel `"C"` is rejected with the invalid-argument
error (under the concrete mocked device, which is never consulted). -/
theorem read_kelvin_channel_validation_witness :
    testHandle.read_kelvin devERR "C" .dstr =
      .error (.runtimeError
        "The input letter type must be \x27A\x27 or \x27B\x27.") :=
  (read_kelvin_channel_validation testHandle "C" .dstr).1 (by decide) devERR

/-- Claim C7: in `_send_raw_scip_command`, when the configured timeout is not
strictly positive the line is read with the fixed fallback timeout
`DEFAULT_TIMEOUT = 5` and the session timeout is afterwards restored to the
configured value; when it is strictly positive the read uses the configured
timeout and the session state is left exactly as opened; in both cases the
session's timeout at release equals the configured one. -/
theorem send_raw_timeout_fallback :
    ∀ (self : Lakeshore_Model331) (dev : String → Int → String)
      (bytecommand : String),
      (self._timeout ≤ 0 →
        self._send_raw_scip_command dev bytecommand =
          (dev bytecommand DEFAULT_TIMEOUT, self.openSer))
      ∧ (0 < self._timeout →
        self._send_raw_scip_command dev bytecommand =
          (dev bytecommand self._timeout, self.openSer))
      ∧ (self._send_raw_scip_command dev bytecommand).2.timeout =
          self._timeout := by
  intro self dev bc
  refine ⟨?_, ?_, ?_⟩
  · intro h
    unfold Lakeshore_Model331._send_raw_scip_command Lakeshore_Model331.openSer
    dsimp only
    rw [if_pos h]
  · intro h
    unfold Lakeshore_Model331._send_raw_scip_command Lakeshore_Model331.openSer
    dsimp only
    rw [if_neg (not_le.mpr h)]
  · unfold Lakeshore_Model331._send_raw_scip_command Lakeshore_Model331.openSer
    dsimp only
    by_cases h : self._timeout ≤ 0
    · rw [if_pos h]
    · rw [if_neg h]

/-- Witness for C7: a handle configured with timeout `0` reads with the
fallback timeout `DEFAULT_TIMEOUT` and releases the session with the
configured timeout `0` restored. -/
theorem send_raw_timeout_fallback_witness :
    hZero._send_raw_scip_command devERR "KRDG? A\n" =
      (devERR "KRDG? A\n" DEFAULT_TIMEOUT, hZero.openSer) :=
  (send_raw_timeout_fallback hZero devERR "KRDG? A\n").1 (by decide)

/-- Claim C8: after the optional flattening step of `load_configuration`, if
any of the keys `port`, `baudrate`, `timeout` is absent the constructor
fails with the missing-parameter `KeyError` whose message names all three
required keys; if all three are present the handle is built from exactly
those values through `__init__` (so baud-rate validation still applies). -/
theorem load_configuration_required_keys :
    ∀ (configuration : List (String × PyVal)) (_flat : Bool)
      (config : List (String × PyVal)),
      resolved_configuration configuration _flat = .ok config →
      ((lookupKey config "port" = none ∨ lookupKey config "baudrate" = none ∨
          lookupKey config "timeout" = none) →
        Lakeshore_Model331.load_configuration configuration _flat =
          .error (.keyError
            "The serial parameters are missing. Required are the following: \x27port\x27, \x27baudrate\x27, and \x27timeout\x27."))
      ∧ (∀ port baudrate timeout : PyVal,
        lookupKey config "port" = some port →
        lookupKey config "baudrate" = some baudrate →
        lookupKey config "timeout" = some timeout →
        Lakeshore_Model331.load_configuration configuration _flat =
          Lakeshore_Model331.init port baudrate timeout) := by
  intro cfg fl config hres
  unfold Lakeshore_Model331.load_configuration
  rw [hres]
  constructor
  · intro hmiss
    cases hp : lookupKey config "port" with
    | none => simp only [Except.bind, hp]
    | some p =>
      cases hb : lookupKey config "baudrate" with
      | none => simp only [Except.bind, hp, hb]
      | some b =>
        cases ht : lookupKey config "timeout" with
        | none => simp only [Except.bind, hp, hb, ht]
        | some t =>
          rcases hmiss with h | h | h
          · rw [hp] at h; exact absurd h (by simp)
          · rw [hb] at h; exact absurd h (by simp)
          · rw [ht] at h; exact absurd h (by simp)
  · intro p b t hp hb ht
    simp only [Except.bind, hp, hb, ht]

/-- Witness for C8: `{"port": "p", "baudrate": 9600, "timeout": 5}` builds the
handle from those values (and the build succeeds), while the same
configuration without `port` fails with the missing-parameter error. -/
theorem load_configuration_required_keys_witness :
    Lakeshore_Model331.load_configuration cfgFull false =
      Lakeshore_Model331.init (.vstr "p") (.vint 9600) (.vint 5)
    ∧ Lakeshore_Model331.load_configuration cfgMissing false =
      .error (.keyError
        "The serial parameters are missing. Required are the following: \x27port\x27, \x27baudrate\x27, and \x27timeout\x27.") :=
  ⟨(load_configuration_required_keys cfgFull false cfgFull rfl).2
      (.vstr "p") (.vint 9600) (.vint 5) rfl rfl rfl,
   (load_configuration_required_keys cfgMissing false cfgMissing rfl).1
      (Or.inl rfl)⟩

/-- Claim C10: `load_configuration` with `_flat=True` always flattens under
the `raise` policy, so any error the flattener raises on the configuration —
in particular a key-collision conflict error — is the result of the
constructor call. -/
theorem load_configuration_flatten_uses_raise :
    ∀ (configuration : List (String × PyVal)) (e : LSError),
      _ravel_dictionary configuration "raise" = .error e →
      Lakeshore_Model331.load_configuration configuration true = .error e := by
  intro cfg e h
  unfold Lakeshore_Model331.load_configuration resolved_configuration
  rw [if_pos rfl, h]
  rfl

/-- Witness for C10: loading the colliding configuration
`{"a": 1, "b": {"a": 2}}` with `_flat=True` fails with the flattener's
conflict error rather than silently merging. -/
theorem load_configuration_flatten_uses_raise_witness :
    Lakeshore_Model331.load_configuration exDict true =
      .error (.conflictError [("a", PyVal.vint 2)] [("a", PyVal.vint 1)]) :=
  load_configuration_flatten_uses_raise exDict
    (.conflictError [("a", PyVal.vint 2)] [("a", PyVal.vint 1)]) rfl

lemma mem_of_lookupKey {l : List (String × PyVal)} {k : String} {w : PyVal}
    (h : lookupKey l k = some w) : ∃ e, e ∈ l ∧ e.2 = w := by
  unfold lookupKey at h
  cases hf : List.find? (fun e => e.1 = k) l with
  | none => rw [hf] at h; exact absurd h (by simp)
  | some p =>
    rw [hf] at h
    refine ⟨p, List.mem_of_find?_eq_some hf, ?_⟩
    simpa using h

lemma dunion_dictFree {a b : List (String × PyVal)}
    (ha : dictValuesFree a = true) (hb : dictValuesFree b = true) :
    dictValuesFree (dunion a b) = true := by
  unfold dictValuesFree at *
  unfold dunion
  simp only [List.all_append, Bool.and_eq_true, List.all_eq_true] at *
  constructor
  · intro e he
    obtain ⟨f, hf, rfl⟩ := List.mem_map.mp he
    cases hw : lookupKey b f.1 with
    | none => exact ha f hf
    | some w =>
      obtain ⟨g, hg, hgw⟩ := mem_of_lookupKey hw
      exact hgw ▸ hb g hg
  · intro e he
    exact hb e (List.mem_of_mem_filter he)

lemma combineDicts_dictFree {c : Conflict}
    {ravel temp out : List (String × PyVal)}
    (h1 : dictValuesFree ravel = true) (h2 : dictValuesFree temp = true)
    (h : combineDicts c ravel temp = .ok out) : dictValuesFree out = true := by
  unfold combineDicts at h
  split at h
  · cases c with
    | raise => exact absurd h (by simp)
    | superior => cases h; exact dunion_dictFree h2 h1
    | inferior => cases h; exact dunion_dictFree h1 h2
  · cases h; exact dunion_dictFree h2 h1

lemma ravelGo_dictFree : ∀ (f : Nat) (c : Conflict)
    (ravel l out : List (String × PyVal)),
    dictValuesFree ravel = true → ravelGo c f ravel l = .ok out →
    dictValuesFree out = true := by
  intro f
  induction f with
  | zero =>
    intro c ravel l out _ h
    exact absurd h (by simp [ravelGo])
  | succ f ih =>
    intro c ravel l out h1 h2
    cases l with
    | nil =>
      simp only [ravelGo] at h2
      cases h2
      exact h1
    | cons e rest =>
      obtain ⟨k, v⟩ := e
      simp only [ravelGo] at h2
      cases v with
      | vdict d =>
        dsimp only at h2
        cases htemp : ravelGo c f [] (sortEnts d) with
        | error err => rw [htemp] at h2; exact absurd h2 (by simp [Except.bind])
        | ok temp =>
          rw [htemp] at h2
          simp only [Except.bind] at h2
          cases hcomb : combineDicts c ravel temp with
          | error err => rw [hcomb] at h2; exact absurd h2 (by simp)
          | ok ravel2 =>
            rw [hcomb] at h2
            have htf : dictValuesFree temp = true :=
              ih c [] (sortEnts d) temp rfl htemp
            exact ih c ravel2 rest out (combineDicts_dictFree h1 htf hcomb) h2
      | vint n =>
        simp only [Except.bind] at h2
        cases hcomb : combineDicts c ravel [(k, PyVal.vint n)] with
        | error err => rw [hcomb] at h2; exact absurd h2 (by simp)
        | ok ravel2 =>
          rw [hcomb] at h2
          exact ih c ravel2 rest out (combineDicts_dictFree h1
            (show dictValuesFree [(k, PyVal.vint n)] = true from rfl) hcomb) h2
      | vstr s =>
        simp only [Except.bind] at h2
        cases hcomb : combineDicts c ravel [(k, PyVal.vstr s)] with
        | error err => rw [hcomb] at h2; exact absurd h2 (by simp)
        | ok ravel2 =>
          rw [hcomb] at h2
          exact ih c ravel2 rest out (combineDicts_dictFree h1
            (show dictValuesFree [(k, PyVal.vstr s)] = true from rfl) hcomb) h2

lemma entsSize_insertEnt (e : String × PyVal) :
    ∀ l : List (String × PyVal), entsSize (insertEnt e l) = entsSize (e :: l) := by
  obtain ⟨k, v⟩ := e
  intro l
  induction l with
  | nil => rfl
  | cons f rest ih =>
    obtain ⟨k2, v2⟩ := f
    unfold insertEnt
    split
    · simp only [entsSize]
      rw [ih]
      simp only [entsSize]
      omega
    · rfl

lemma entsSize_sortEnts : ∀ l : List (String × PyVal),
    entsSize (sortEnts l) = entsSize l := by
  intro l
  induction l with
  | nil => rfl
  | cons e rest ih =>
    obtain ⟨k, v⟩ := e
    simp only [sortEnts]
    rw [entsSize_insertEnt]
    simp only [entsSize, ih]

/-- The fuel threaded through `ravelGo` is irrelevant once it exceeds the
size of the entry list, so the fuel `entsSize dictionary + 1` supplied by
`_ravel_dictionary` makes the out-of-fuel branch unreachable and the
embedding total, exactly like the Python recursion on acyclic input. -/
lemma ravelGo_fuel_congr : ∀ (f g : Nat) (c : Conflict)
    (ravel l : List (String × PyVal)),
    entsSize l < f → entsSize l < g →
    ravelGo c f ravel l = ravelGo c g ravel l := by
  intro f
  induction f with
  | zero => intro g c ravel l hf _; exact absurd hf (Nat.not_lt_zero _)
  | succ f ih =>
    intro g c ravel l hf hg
    cases g with
    | zero => exact absurd hg (Nat.not_lt_zero _)
    | succ g =>
      cases l with
      | nil => rfl
      | cons e rest =>
        obtain ⟨k, v⟩ := e
        have hrest : entsSize rest < f ∧ entsSize rest < g := by
          simp only [entsSize] at hf hg
          omega
        simp only [ravelGo]
        cases v with
        | vdict d =>
          have hd : entsSize (sortEnts d) < f ∧ entsSize (sortEnts d) < g := by
            rw [entsSize_sortEnts]
            simp only [entsSize, pySize] at hf hg
            omega
          dsimp only
          rw [ih g c [] (sortEnts d) hd.1 hd.2]
          cases ravelGo c g [] (sortEnts d) with
          | error err => rfl
          | ok temp =>
            simp only [Except.bind]
            cases combineDicts c ravel temp with
            | error err => rfl
            | ok r2 => exact ih g c r2 rest hrest.1 hrest.2
        | vint n =>
          simp only [Except.bind]
          cases combineDicts c ravel [(k, PyVal.vint n)] with
          | error err => rfl
          | ok r2 => exact ih g c r2 rest hrest.1 hrest.2
        | vstr s =>
          simp only [Except.bind]
          cases combineDicts c ravel [(k, PyVal.vstr s)] with
          | error err => rfl
          | ok r2 => exact ih g c r2 rest hrest.1 hrest.2

/-- Claim C9: whenever the flattener succeeds on an (inherently acyclic)
nested dictionary under any conflict policy, its output contains only
non-dictionary leaf values; and flattening the empty dictionary yields the
empty dictionary under each of the three valid policies. -/
theorem ravel_output_flat_and_empty :
    (∀ (dictionary : List (String × PyVal)) (conflict : String)
        (out : List (String × PyVal)),
      _ravel_dictionary dictionary conflict = .ok out →
      dictValuesFree out = true)
    ∧ (∀ conflict : String,
      (pyLower conflict = "raise" ∨ pyLower conflict = "superior" ∨
        pyLower conflict = "inferior") →
      _ravel_dictionary [] conflict = .ok []) := by
  constructor
  · intro d c out h
    unfold _ravel_dictionary at h
    dsimp only at h
    split_ifs at h with h1 h2 h3
    · exact ravelGo_dictFree _ _ _ _ _ (show dictValuesFree [] = true from rfl) h
    · exact ravelGo_dictFree _ _ _ _ _ (show dictValuesFree [] = true from rfl) h
    · exact ravelGo_dictFree _ _ _ _ _ (show dictValuesFree [] = true from rfl) h
  · intro c hc
    unfold _ravel_dictionary
    dsimp only
    rcases hc with h | h | h
    · rw [h, if_pos rfl]
      rfl
    · rw [h, if_neg (by decide), if_pos rfl]
      rfl
    · rw [h, if_neg (by decide), if_neg (by decide), if_pos rfl]
      rfl

/-- Witness for C9: the `superior` flattening of the example dictionary has
only leaf values, and the empty dictionary flattens to the empty dictionary
under `inferior`. -/
theorem ravel_output_flat_and_empty_witness :
    dictValuesFree [("a", PyVal.vint 1)] = true
    ∧ _ravel_dictionary [] "inferior" = .ok [] :=
  ⟨ravel_output_flat_and_empty.1 exDict "superior" [("a", PyVal.vint 1)] rfl,
   ravel_output_flat_and_empty.2 "inferior" (Or.inr (Or.inr rfl))⟩
